import Mathlib

/-!
Shallow embedding of `src/main.rs` of the rust-demo-app HTTP service.

The service is a set of independent request handlers over one piece of
process-wide state, a start timestamp (`START_TIME`).  Each handler is
translated as a pure Lean function of the data it reads from the process
(start time, current monotonic time, OS snapshot, environment variables).
Machine integers (`u64`, `usize`) are modelled as `Nat`, with an explicit
`% 2 ^ 64` where a `u64` addition could wrap.  Wall-clock timing fields
(`computation_ms`, `timestamp`) carry no logic and are modelled as opaque
inputs or omitted.
-/

/-- `u64::MAX + 1`: the modulus of `u64` arithmetic. -/
def u64Mod : Nat := 2 ^ 64

/-- Embedding of `fn fib(n: u64) -> u64`:
`if n <= 1 { return n; } fib(n - 1) + fib(n - 2)`.
The `u64` addition is taken modulo `2^64` (release-mode wrapping). -/
def fib (n : Nat) : Nat :=
  if n ≤ 1 then n
  else (fib (n - 1) + fib (n - 2)) % u64Mod
decreasing_by
  · omega
  · omega

/-- The mathematical Fibonacci sequence exactly as the spec words it:
`F(0)=0, F(1)=1, F(k)=F(k-1)+F(k-2)` (spec-side definition, to be compared
with the code's `fib`). -/
def fibSpec : Nat → Nat
  | 0 => 0
  | 1 => 1
  | n + 2 => fibSpec (n + 1) + fibSpec n

/-- Embedding of `fn fib` with every `u64` subtraction and addition checked:
`none` signals an underflowing subtraction or an overflowing addition.  The
structure mirrors the source: subtractions `n-1`, `n-2` happen only in the
`else` branch, and the addition is checked against `u64::MAX`. -/
def fibChecked (n : Nat) : Option Nat :=
  if n ≤ 1 then some n
  else if n < 2 then none   -- would-be `u64` underflow of `n - 2`
  else
    match fibChecked (n - 1), fibChecked (n - 2) with
    | some a, some b => if a + b < u64Mod then some (a + b) else none
    | _, _ => none
decreasing_by
  · omega
  · omega

/-- Embedding of `struct FibQuery { n: Option<u64> }`. -/
structure FibQuery where
  n : Option Nat
deriving Repr, DecidableEq

/-- Embedding of `struct FibResult` (the wall-clock `computation_ms` field
carries no logic and is not modelled). -/
structure FibResult where
  n : Nat
  result : Nat
deriving Repr, DecidableEq

/-- Embedding of the `fibonacci` handler body:
`let n = params.n.unwrap_or(10).min(45); let result = fib(n); Json(FibResult { n, result, .. })`. -/
def fibonacci (q : FibQuery) : FibResult :=
  let n := min (q.n.getD 10) 45
  { n := n, result := fib n }

/-- Model of serde/axum deserialization of the `n` query parameter into a
`u64`: a non-empty all-digit decimal string whose value fits in `u64`
parses; anything else is a deserialization failure, which axum's `Query`
extractor turns into a `400 Bad Request` rejection before the handler runs. -/
def parseU64 (s : String) : Option Nat :=
  if s.data ≠ [] ∧ s.data.all Char.isDigit then
    let v := s.data.foldl (fun n c => n * 10 + (c.toNat - 48)) 0
    if v < u64Mod then some v else none
  else none

/-- The `/fib` endpoint as seen by a client: axum first deserializes the raw
`n` query parameter (if present) into `FibQuery`; a failed parse is a
client-error rejection (`Except.error`), otherwise the `fibonacci` handler
runs. -/
def fibEndpoint (rawN : Option String) : Except Unit FibResult :=
  match rawN with
  | none => .ok (fibonacci ⟨none⟩)
  | some s =>
    match parseU64 s with
    | some v => .ok (fibonacci ⟨some v⟩)
    | none => .error ()

/-- The process-wide state: `static mut START_TIME: Option<Instant>`.
`Instant` values are modelled as `Nat` ticks of the monotonic clock
(in seconds, since `as_secs` is all the code reads). -/
structure ProcState where
  startTime : Option Nat
deriving Repr, DecidableEq

/-- Embedding of `fn uptime_secs() -> u64`:
`START_TIME.map(|s| s.elapsed().as_secs()).unwrap_or(0)`.
`Instant::elapsed` on a monotonic clock saturates at zero, matching `Nat`
subtraction. -/
def uptime_secs (startTime : Option Nat) (now : Nat) : Nat :=
  match startTime with
  | some s => now - s
  | none => 0

/-- Embedding of `struct HealthResponse`. -/
structure HealthResponse where
  status : String
  uptime_seconds : Nat
  timestamp : String
deriving Repr, DecidableEq

/-- An HTTP response carrying a JSON body `β`: axum's `Json<T>` responder
always produces status code 200. -/
structure JsonResponse (β : Type) where
  code : Nat
  body : β
deriving Repr, DecidableEq

/-- Embedding of the `healthz` handler: status `"ok"`, current uptime, and
the RFC 3339 timestamp of the wall clock (`ts`), wrapped in `Json` (code 200). -/
def healthz (startTime : Option Nat) (now : Nat) (ts : String) :
    JsonResponse HealthResponse :=
  { code := 200
    body := { status := "ok", uptime_seconds := uptime_secs startTime now, timestamp := ts } }

/-- Embedding of the `readyz` handler: identical to `healthz` except for
status `"ready"`. -/
def readyz (startTime : Option Nat) (now : Nat) (ts : String) :
    JsonResponse HealthResponse :=
  { code := 200
    body := { status := "ready", uptime_seconds := uptime_secs startTime now, timestamp := ts } }

/-- The environment-variable filter predicate of the `info` handler, exactly
the closure passed to `env::vars().filter(...)`. -/
def envWhitelisted (k : String) : Bool :=
  k.startsWith "KUBERNETES_"
    || k.startsWith "OPENSHIFT_"
    || k.startsWith "POD_"
    || k == "HOSTNAME"
    || k == "HOME"
    || k == "PATH"
    || k == "RUST_LOG"
    || k == "APP_VERSION"

/-- The environment mapping built by `info`: `env::vars().filter(..).collect()`
over the process environment (an association list of variable/value pairs;
OS environments have distinct keys, so the `HashMap` collect is a plain
filter). -/
def infoEnvironment (vars : List (String × String)) : List (String × String) :=
  vars.filter (fun kv => envWhitelisted kv.1)

/-- Snapshot of the data the `sysinfo` crate reports to the handlers.
On Linux `sysinfo`'s `used_memory` is `MemTotal - MemAvailable`, which is
modelled by `Sys.usedMemory` below via saturating `Nat` subtraction. -/
structure Sys where
  totalMemory : Nat
  availableMemory : Nat
  cpuCount : Nat
deriving Repr, DecidableEq

/-- `sysinfo::System::used_memory()` on Linux: total minus available. -/
def Sys.usedMemory (s : Sys) : Nat := s.totalMemory - s.availableMemory

/-- Embedding of `struct SystemInfo`. -/
structure SystemInfo where
  os_name : String
  os_version : String
  kernel_version : String
  cpu_count : Nat
  total_memory_mb : Nat
  used_memory_mb : Nat
deriving Repr, DecidableEq

/-- Embedding of `struct ContainerInfo`. -/
structure ContainerInfo where
  hostname : String
  user_id : Nat
  group_id : Nat
  environment : List (String × String)
  system : SystemInfo
deriving Repr, DecidableEq

/-- Embedding of the `info` handler.  `hostRes`, `osName`, `osVer`,
`kernelVer` are the fallible OS queries (`hostname::get()`,
`System::name()`, ...); `none` models their failure, handled by
`unwrap_or_else(|_| "unknown")` resp. `unwrap_or_default()`. -/
def info (hostRes : Option String) (uid gid : Nat)
    (vars : List (String × String)) (sys : Sys)
    (osName osVer kernelVer : Option String) : JsonResponse ContainerInfo :=
  { code := 200
    body :=
      { hostname := hostRes.getD "unknown"
        user_id := uid
        group_id := gid
        environment := infoEnvironment vars
        system :=
          { os_name := osName.getD ""
            os_version := osVer.getD ""
            kernel_version := kernelVer.getD ""
            cpu_count := sys.cpuCount
            total_memory_mb := sys.totalMemory / 1024 / 1024
            used_memory_mb := sys.usedMemory / 1024 / 1024 } } }

/-- One Prometheus gauge sample: a metric name and its numeric value. -/
structure Gauge where
  name : String
  value : Nat
deriving Repr, DecidableEq

/-- Embedding of the `metrics` handler's body: the four gauge samples, in the
order of the format string (`app_uptime_seconds`, `app_memory_total_bytes`,
`app_memory_used_bytes`, `app_cpu_count`). -/
def metricsGauges (startTime : Option Nat) (now : Nat) (sys : Sys) : List Gauge :=
  [ { name := "app_uptime_seconds", value := uptime_secs startTime now }
  , { name := "app_memory_total_bytes", value := sys.totalMemory }
  , { name := "app_memory_used_bytes", value := sys.usedMemory }
  , { name := "app_cpu_count", value := sys.cpuCount } ]

/-- Rendering of one gauge in Prometheus text exposition format, mirroring
one block of the `metrics` format string. -/
def Gauge.render (g : Gauge) (help : String) : String :=
  "# HELP " ++ g.name ++ " " ++ help ++ "\n"
    ++ "# TYPE " ++ g.name ++ " gauge\n"
    ++ g.name ++ " " ++ toString g.value ++ "\n"

/-- Embedding of the full `metrics` handler: status 200, `text/plain`
content type, and the body rendered gauge by gauge. -/
def metrics (startTime : Option Nat) (now : Nat) (sys : Sys) :
    Nat × String × String :=
  let gs := metricsGauges startTime now sys
  ( 200
  , "text/plain; version=0.0.4"
  , String.intercalate "\n"
      ((gs.zip
        [ "Time since application started"
        , "Total system memory"
        , "Used system memory"
        , "Number of CPUs available" ]).map (fun p => p.1.render p.2)) )

/-- Lookup of a gauge's value by metric name. -/
def gaugeValue (gs : List Gauge) (name : String) : Option Nat :=
  (gs.find? (fun g => g.name == name)).map Gauge.value

/-- Embedding of the `crash` handler's synchronous part: the response sent
before the spawned task fires, and the delay (in ms) of the spawned
`sleep(100ms); panic!` task. -/
def crash : (Nat × String) × Nat :=
  ((200, "Crashing in 100ms... watch your pod restart! 💥"), 100)

/-- `healthz` at the process-state level: the handler reads `START_TIME` and
returns the state it was given (the source never writes the static after
`main`'s initialization). -/
def healthzStep (ps : ProcState) (now : Nat) (ts : String) :
    JsonResponse HealthResponse × ProcState :=
  (healthz ps.startTime now ts, ps)

/-- `readyz` at the process-state level. -/
def readyzStep (ps : ProcState) (now : Nat) (ts : String) :
    JsonResponse HealthResponse × ProcState :=
  (readyz ps.startTime now ts, ps)

/-- `info` at the process-state level (it reads no process state at all,
only the OS). -/
def infoStep (ps : ProcState) (hostRes : Option String) (uid gid : Nat)
    (vars : List (String × String)) (sys : Sys)
    (osName osVer kernelVer : Option String) :
    JsonResponse ContainerInfo × ProcState :=
  (info hostRes uid gid vars sys osName osVer kernelVer, ps)

/-- `metrics` at the process-state level. -/
def metricsStep (ps : ProcState) (now : Nat) (sys : Sys) :
    (Nat × String × String) × ProcState :=
  (metrics ps.startTime now sys, ps)

/-! ### Helper lemmas about the Fibonacci functions -/

theorem fibSpec_eq_nat_fib (n : Nat) : fibSpec n = Nat.fib n := by
  induction n using Nat.strong_induction_on with
  | _ n ih =>
    rcases n with _ | _ | m
    · rfl
    · rfl
    · have h1 := ih (m + 1) (by omega)
      have h2 := ih m (by omega)
      show fibSpec (m + 1) + fibSpec m = Nat.fib (m + 2)
      rw [h1, h2, Nat.fib_add_two, Nat.add_comm]

theorem fibSpec_lt_u64Mod {n : Nat} (h : n ≤ 45) : fibSpec n < u64Mod := by
  have hm : Nat.fib n ≤ Nat.fib 45 := Nat.fib_mono h
  have h45 : Nat.fib 45 < u64Mod := by decide
  calc fibSpec n = Nat.fib n := fibSpec_eq_nat_fib n
    _ ≤ Nat.fib 45 := hm
    _ < u64Mod := h45

theorem fib_eq_fibSpec : ∀ n, n ≤ 45 → fib n = fibSpec n := by
  intro n
  induction n using Nat.strong_induction_on with
  | _ n ih =>
    intro h
    rcases n with _ | _ | m
    · simp [fib, fibSpec]
    · simp [fib, fibSpec]
    · rw [fib]
      have hif : ¬(m + 2 ≤ 1) := by omega
      rw [if_neg hif]
      have e1 : m + 2 - 1 = m + 1 := by omega
      have e2 : m + 2 - 2 = m := by omega
      rw [e1, e2, ih (m + 1) (by omega) (by omega), ih m (by omega) (by omega)]
      have : fibSpec (m + 1) + fibSpec m = fibSpec (m + 2) := rfl
      rw [this]
      exact Nat.mod_eq_of_lt (fibSpec_lt_u64Mod h)

theorem fibChecked_eq_some : ∀ n, n ≤ 45 → fibChecked n = some (fibSpec n) := by
  intro n
  induction n using Nat.strong_induction_on with
  | _ n ih =>
    intro h
    rcases n with _ | _ | m
    · simp [fibChecked, fibSpec]
    · simp [fibChecked, fibSpec]
    · rw [fibChecked]
      have hif : ¬(m + 2 ≤ 1) := by omega
      have hif2 : ¬(m + 2 < 2) := by omega
      rw [if_neg hif, if_neg hif2]
      have e1 : m + 2 - 1 = m + 1 := by omega
      have e2 : m + 2 - 2 = m := by omega
      rw [e1, e2, ih (m + 1) (by omega) (by omega), ih m (by omega) (by omega)]
      have hsum : fibSpec (m + 1) + fibSpec m = fibSpec (m + 2) := rfl
      simp only []
      rw [if_pos (by rw [hsum]; exact fibSpec_lt_u64Mod h), hsum]

/-! ### Claim theorems -/

/-- C1: For every `n` in `[0,45]`, the `fibonacci` handler returns `result`
equal to the mathematically correct `n`-th Fibonacci number of the sequence
`F(0)=0, F(1)=1, F(k)=F(k-1)+F(k-2)`; in particular `n=0` gives `result=0`,
`n=1` gives `result=1`, and `n=10` gives `result=55`. -/
theorem fib_handler_result_correct (n : Nat) (h : n ≤ 45) :
    (fibonacci ⟨some n⟩).result = fibSpec n
    ∧ (fibonacci ⟨some 0⟩).result = 0
    ∧ (fibonacci ⟨some 1⟩).result = 1
    ∧ (fibonacci ⟨some 10⟩).result = 55 := by
  have key : ∀ m, m ≤ 45 → (fibonacci ⟨some m⟩).result = fibSpec m := by
    intro m hm
    have hmin : min m 45 = m := by omega
    simp only [fibonacci, Option.getD_some]
    rw [hmin]
    exact fib_eq_fibSpec m hm
  refine ⟨key n h, ?_, ?_, ?_⟩
  · rw [key 0 (by omega)]
    decide
  · rw [key 1 (by omega)]
    decide
  · rw [key 10 (by omega)]
    decide

theorem fib_handler_result_correct_witness :
    10 ≤ 45 ∧ (fibonacci ⟨some 10⟩).result = 55 :=
  ⟨by decide, (fib_handler_result_correct 10 (by decide)).2.2.2⟩

/-- C10: For every `n ≤ 45`, the naive recursive `fib` computation
terminates, its subtractions `n-1` and `n-2` never underflow (they occur
only when `n > 1`), and no intermediate or final `u64` addition overflows
(the fully-checked recursion `fibChecked` returns `some`), so the `u64`
value computed by the handler equals the exact mathematical Fibonacci
number `F(n)`. -/
theorem fib_no_underflow_overflow (n : Nat) (h : n ≤ 45) :
    fibChecked n = some (fibSpec n) ∧ fib n = fibSpec n :=
  ⟨fibChecked_eq_some n h, fib_eq_fibSpec n h⟩

theorem fib_no_underflow_overflow_witness :
    10 ≤ 45 ∧ fibChecked 10 = some (fibSpec 10) :=
  ⟨by decide, (fib_no_underflow_overflow 10 (by decide)).1⟩

/-- C4: For every request to the `fibonacci` handler, the `n` used for
computation and echoed in the response's `n` field equals 10 when the query
parameter is absent, and otherwise equals the minimum of the supplied value
and 45 (so the response's `n` is always at most 45). -/
theorem fib_n_normalized (q : FibQuery) :
    (q.n = none → (fibonacci q).n = 10)
    ∧ (∀ v, q.n = some v → (fibonacci q).n = min v 45)
    ∧ (fibonacci q).n ≤ 45 := by
  refine ⟨?_, ?_, ?_⟩
  · intro hn
    simp only [fibonacci, hn, Option.getD_none]
    omega
  · intro v hv
    simp only [fibonacci, hv, Option.getD_some]
  · simp only [fibonacci]
    omega

theorem fib_n_normalized_witness :
    (fibonacci ⟨none⟩).n = 10 ∧ (fibonacci ⟨some 100⟩).n = 45 :=
  ⟨(fib_n_normalized ⟨none⟩).1 rfl, by
    have h := (fib_n_normalized ⟨some 100⟩).2.1 100 rfl
    rw [h]
    decide⟩

/-- C5 counterexample: the raw query value `"abc"` does not parse as a
`u64`, so axum's `Query` extractor rejects the request with a client error
(`400 Bad Request`) before the handler runs: the `/fib` endpoint does not
normalize every possible value of `n`. -/
theorem fib_endpoint_rejects_malformed :
    fibEndpoint (some "abc") = .error () := by
  have h : parseU64 "abc" = none := by decide
  simp only [fibEndpoint, h]

/-- C5 (amended): For every absent `n` query parameter, or any value that
parses as a `u64`, the request is normalized (missing → default 10, value
clamped to at most 45) and the endpoint succeeds; values that fail to parse
as a `u64` are instead rejected by query deserialization with a client
error. -/
theorem fib_endpoint_normalizes (rawN : Option String)
    (h : ∀ s, rawN = some s → (parseU64 s).isSome = true) :
    ∃ r : FibResult, fibEndpoint rawN = .ok r ∧ r.n ≤ 45
      ∧ (rawN = none → r.n = 10) := by
  rcases rawN with _ | s
  · exact ⟨fibonacci ⟨none⟩, rfl, by simp [fibonacci], fun _ => rfl⟩
  · have hs := h s rfl
    rcases hps : parseU64 s with _ | v
    · rw [hps] at hs
      cases hs
    · refine ⟨fibonacci ⟨some v⟩, ?_, by simp [fibonacci], fun hc => by cases hc⟩
      simp [fibEndpoint, hps]

theorem fib_endpoint_normalizes_witness :
    ∃ r : FibResult, fibEndpoint (some "7") = .ok r ∧ r.n ≤ 45
      ∧ (some "7" = none → r.n = 10) :=
  fib_endpoint_normalizes (some "7") (by intro s hs; cases hs; decide)

/-- C3: For every process environment, the environment mapping returned by
the `info` handler contains exactly those variables whose keys start with
`KUBERNETES_`, `OPENSHIFT_`, or `POD_`, or are exactly `HOSTNAME`, `HOME`,
`PATH`, `RUST_LOG`, or `APP_VERSION`; any other environment variable
(including any secret-like key) never appears in the response. -/
theorem info_environment_whitelist (hostRes : Option String) (uid gid : Nat)
    (vars : List (String × String)) (sys : Sys)
    (osName osVer kernelVer : Option String) (k v : String) :
    (k, v) ∈ (info hostRes uid gid vars sys osName osVer kernelVer).body.environment
      ↔ (k, v) ∈ vars
        ∧ (k.startsWith "KUBERNETES_" = true ∨ k.startsWith "OPENSHIFT_" = true
            ∨ k.startsWith "POD_" = true ∨ k = "HOSTNAME" ∨ k = "HOME"
            ∨ k = "PATH" ∨ k = "RUST_LOG" ∨ k = "APP_VERSION") := by
  simp only [info, infoEnvironment, List.mem_filter, envWhitelisted,
    Bool.or_eq_true, beq_iff_eq, or_assoc]

/-- C6: Within one process lifetime, the `uptime_seconds` value reported by
successive calls to the `healthz` and `readyz` handlers is monotonically
non-decreasing, and equals 0 immediately after startup (at the monotonic
instant `s` stored in `START_TIME` by `main`). -/
theorem uptime_monotone_and_zero (s t1 t2 : Nat) (ts1 ts2 ts : String)
    (h : t1 ≤ t2) :
    (healthz (some s) t1 ts1).body.uptime_seconds
        ≤ (healthz (some s) t2 ts2).body.uptime_seconds
    ∧ (readyz (some s) t1 ts1).body.uptime_seconds
        ≤ (readyz (some s) t2 ts2).body.uptime_seconds
    ∧ (healthz (some s) s ts).body.uptime_seconds = 0
    ∧ (readyz (some s) s ts).body.uptime_seconds = 0 := by
  simp only [healthz, readyz, uptime_secs]
  omega

theorem uptime_monotone_and_zero_witness :
    4 ≤ 9
    ∧ ((healthz (some 3) 4 "a").body.uptime_seconds
          ≤ (healthz (some 3) 9 "b").body.uptime_seconds
        ∧ (readyz (some 3) 4 "a").body.uptime_seconds
            ≤ (readyz (some 3) 9 "b").body.uptime_seconds
        ∧ (healthz (some 3) 3 "c").body.uptime_seconds = 0
        ∧ (readyz (some 3) 3 "c").body.uptime_seconds = 0) :=
  ⟨by decide, uptime_monotone_and_zero 3 4 9 "a" "b" "c" (by decide)⟩

/-- C7: For every call, the `metrics` handler's output consists of exactly
four gauges named `app_uptime_seconds`, `app_memory_total_bytes`,
`app_memory_used_bytes`, and `app_cpu_count`, each with a non-negative
numeric value, and the `app_memory_used_bytes` value is at most the
`app_memory_total_bytes` value. -/
theorem metrics_four_gauges (startTime : Option Nat) (now : Nat) (sys : Sys) :
    (metricsGauges startTime now sys).map Gauge.name
        = ["app_uptime_seconds", "app_memory_total_bytes",
           "app_memory_used_bytes", "app_cpu_count"]
    ∧ (metricsGauges startTime now sys).length = 4
    ∧ (∀ g ∈ metricsGauges startTime now sys, 0 ≤ g.value)
    ∧ gaugeValue (metricsGauges startTime now sys) "app_memory_total_bytes"
        = some sys.totalMemory
    ∧ gaugeValue (metricsGauges startTime now sys) "app_memory_used_bytes"
        = some sys.usedMemory
    ∧ sys.usedMemory ≤ sys.totalMemory := by
  refine ⟨rfl, rfl, fun g _ => Nat.zero_le _, ?_, ?_, Nat.sub_le _ _⟩
  · simp [gaugeValue, metricsGauges, List.find?]
  · simp [gaugeValue, metricsGauges, List.find?]

/-- C8: Every call to the liveness handler succeeds with a 200 JSON
response whose `status` field is exactly `"ok"`, and every call to the
readiness handler succeeds with a 200 JSON response of identical shape
whose `status` field is exactly `"ready"`; both always include
`uptime_seconds` and a timestamp. -/
theorem health_ready_contract (startTime : Option Nat) (now : Nat) (ts : String) :
    (healthz startTime now ts).code = 200
    ∧ (healthz startTime now ts).body.status = "ok"
    ∧ (readyz startTime now ts).code = 200
    ∧ (readyz startTime now ts).body.status = "ready"
    ∧ (healthz startTime now ts).body.uptime_seconds = uptime_secs startTime now
    ∧ (readyz startTime now ts).body.uptime_seconds = uptime_secs startTime now
    ∧ (healthz startTime now ts).body.timestamp = ts
    ∧ (readyz startTime now ts).body.timestamp = ts :=
  ⟨rfl, rfl, rfl, rfl, rfl, rfl, rfl, rfl⟩

/-- C9: Repeated calls to the `healthz`, `readyz`, `info`, and `metrics`
handlers never mutate any process state (the start timestamp is unchanged
by every such call), and two consecutive calls with no time elapsed differ
only in timestamp and memory-snapshot inputs, not in structural shape:
status, uptime, and gauge names agree. -/
theorem handlers_no_state_mutation (ps : ProcState) (now : Nat)
    (ts ts2 : String) (hostRes : Option String) (uid gid : Nat)
    (vars : List (String × String)) (sys sys2 : Sys)
    (osName osVer kernelVer : Option String) :
    (healthzStep ps now ts).2 = ps
    ∧ (readyzStep ps now ts).2 = ps
    ∧ (infoStep ps hostRes uid gid vars sys osName osVer kernelVer).2 = ps
    ∧ (metricsStep ps now sys).2 = ps
    ∧ (healthzStep ((healthzStep ps now ts).2) now ts2).1.body.status
        = (healthzStep ps now ts).1.body.status
    ∧ (healthzStep ((healthzStep ps now ts).2) now ts2).1.body.uptime_seconds
        = (healthzStep ps now ts).1.body.uptime_seconds
    ∧ (readyzStep ((readyzStep ps now ts).2) now ts2).1.body.status
        = (readyzStep ps now ts).1.body.status
    ∧ (readyzStep ((readyzStep ps now ts).2) now ts2).1.body.uptime_seconds
        = (readyzStep ps now ts).1.body.uptime_seconds
    ∧ (metricsGauges ((metricsStep ps now sys).2).startTime now sys2).map Gauge.name
        = (metricsGauges ps.startTime now sys).map Gauge.name :=
  ⟨rfl, rfl, rfl, rfl, rfl, rfl, rfl, rfl, rfl⟩
